import Mathlib

/-!
Verification of `autocomplete_light/autocomplete/base.py`
(django-autocomplete-light): a shallow embedding of the
`AutocompleteInterface` / `AutocompleteBase` classes, followed by theorems
about the embedded operations.

Modelling conventions:
* Python values passed as the `values` argument are modelled by `PyVal`
  (`None`, strings, integers as the representative non-iterable scalar,
  and lists as the representative non-string iterable).
* A "choice" is modelled by its textual form (the result of `force_str`,
  Python's `str()` conversion), since the default `choice_value` and
  `choice_label` only ever use that textual form.
* Python exceptions are modelled by `PyError`; a method that can raise
  returns `Except PyError _`.
* Django's `reverse` (URL route resolution) is an external collaborator:
  it is modelled as a function argument mapping a route name with
  positional and keyword arguments to `Option String`
  (`none` = `NoReverseMatch`).
* `gettext_lazy` is modelled as the identity on the default literal, per
  the external-interface contract (localization defaults to the literal
  text).
-/

/-- A Python value, as far as the `values` normalization in
`AutocompleteInterface.__init__` can distinguish them: `None`, a string,
a non-iterable scalar (represented by integers), or a non-string iterable
(represented by lists). -/
inductive PyVal where
  | none : PyVal
  | str : String → PyVal
  | int : Int → PyVal
  | list : List PyVal → PyVal

/-- Python's `v is None`. -/
def PyVal.isNone : PyVal → Bool
  | .none => true
  | _ => false

/-- Python's `isinstance(v, six.string_types)`. -/
def PyVal.isString : PyVal → Bool
  | .str _ => true
  | _ => false

/-- Python's `hasattr(v, "__iter__")`: in Python 3, strings and lists are
iterable, `None` and integers are not. -/
def PyVal.hasIter : PyVal → Bool
  | .str _ => true
  | .list _ => true
  | _ => false

/-- The elements an iterable yields when iterated: a string yields its
characters (each a one-character string), a list yields its members.
Used only to state what "using an iterable as-is" would mean. -/
def PyVal.iterElems : PyVal → List PyVal
  | .str s => s.data.map (fun c => .str (String.mk [c]))
  | .list xs => xs
  | v => [v]

/-- `AutocompleteInterface.__init__`'s normalization of the `values`
argument into `self.values`:

    if values is None:
        self.values = []
    elif (isinstance(values, six.string_types) or
            not hasattr(values, "__iter__")):
        self.values = [values]
    else:
        self.values = values
-/
def initValues (values : PyVal) : List PyVal :=
  if values.isNone then
    []
  else if values.isString || !values.hasIter then
    [values]
  else
    match values with
    | .list xs => xs
    | v => [v]

/-- Python exceptions raised by this module. `typeError` is what actually
happens when `NotImplemented()` is evaluated: the `NotImplemented`
singleton is not callable, so the call raises
`TypeError: \x27NotImplementedType\x27 object is not callable` before any
`raise` executes. -/
inductive PyError where
  | typeError : String → PyError
  | notImplementedError : PyError
  | improperlyConfigured : String → PyError
  | noReverseMatch : PyError
deriving DecidableEq, Repr

/-- The message of the `TypeError` raised by evaluating `NotImplemented()`. -/
def notCallableMsg : String :=
  "\x27NotImplementedType\x27 object is not callable"

/-- `raise NotImplemented()` as it actually executes: evaluating the call
expression `NotImplemented()` raises a `TypeError`, since the
`NotImplemented` singleton is not callable. -/
def raiseNotImplementedCall : Except PyError α :=
  .error (.typeError notCallableMsg)

/-- `AutocompleteInterface.autocomplete_html` with no overriding subclass:
its body is `raise NotImplemented()`. -/
def interfaceAutocompleteHtml : Except PyError String :=
  raiseNotImplementedCall

/-- `AutocompleteInterface.validate_values` with no overriding subclass:
its body is `raise NotImplemented()`. -/
def interfaceValidateValues : Except PyError Bool :=
  raiseNotImplementedCall

/-- `AutocompleteInterface.choices_for_values` with no overriding subclass:
its body is `raise NotImplemented()`. -/
def interfaceChoicesForValues : Except PyError (List String) :=
  raiseNotImplementedCall

/-- `AutocompleteBase.choices_for_request` with no overriding subclass:
its body is `raise NotImplemented()`. -/
def baseChoicesForRequest : Except PyError (List String) :=
  raiseNotImplementedCall

/-- A route resolver: Django's `reverse`, mapping a route name plus
positional and keyword arguments to a URL, or `none` when no route
matches (`NoReverseMatch`). -/
def Resolver : Type :=
  String → List String → List (String × String) → Option String

/-- `AutocompleteInterface.get_absolute_url` for an implementation class
named `className` (Python's `self.__class__.__name__`), given the ambient
route resolver:

    try:
        return reverse("autocomplete_light_autocomplete",
            args=(self.__class__.__name__,))
    except NoReverseMatch:
        raise ImproperlyConfigured("URL lookup for autocomplete ... "
                "failed. Have you included autocomplete_light.urls in "
                "your urls.py?" % (self.__class__.__name__,))
-/
def get_absolute_url (resolve : Resolver) (className : String) :
    Except PyError String :=
  match resolve "autocomplete_light_autocomplete" [className] [] with
  | some url => .ok url
  | none =>
      .error (.improperlyConfigured
        ("URL lookup for autocomplete \x27" ++ className ++
         "\x27 failed. Have you included autocomplete_light.urls in your urls.py?"))

/-- Python `%`-formatting over the characters of the format string: each
`%s` consumes the next argument. The templates in this module contain no
other conversion specifiers. -/
def pformatAux : List Char → List String → List Char
  | [], _ => []
  | '%' :: 's' :: rest, a :: args => a.data ++ pformatAux rest args
  | c :: rest, args => c :: pformatAux rest args

/-- Python `fmt % args` for the `%s`-only format strings of this module. -/
def pformat (fmt : String) (args : List String) : String :=
  ⟨pformatAux fmt.data args⟩

/-- `django.utils.html.escape` on one character: `&`, `<`, `>`, `"` and
the single quote become HTML entities, every other character stands. -/
def escapeChar : Char → List Char
  | '&' => "&amp;".data
  | '<' => "&lt;".data
  | '>' => "&gt;".data
  | '"' => "&quot;".data
  | '\'' => "&#x27;".data
  | c => [c]

/-- `django.utils.html.escape` on a character list. -/
def escapeList : List Char → List Char
  | [] => []
  | c :: cs => escapeChar c ++ escapeList cs

/-- `django.utils.html.escape`. -/
def escape (s : String) : String :=
  ⟨escapeList s.data⟩

/-- An implementation of `AutocompleteBase`: the instance attributes set by
`AutocompleteInterface.__init__` (`request`, `values`), the class-level
configuration attributes with their defaults, and — since the two
retrieval methods are abstract and, per the concurrency model, each call
is a pure function of the instance and what those methods return — the
lists the subclass-supplied `choices_for_request` and
`choices_for_values` return. A choice is carried as its textual form. -/
structure AutocompleteBase where
  request : Option String := Option.none
  values : List PyVal := []
  choice_html_format : String := "<span data-value=\"%s\">%s</span>"
  empty_html_format : String := "<span class=\"block\"><em>%s</em></span>"
  autocomplete_html_format : String := "%s"
  add_another_url_name : Option String := Option.none
  add_another_url_kwargs : List (String × String) := []
  choicesForRequestResult : List String := []
  choicesForValuesResult : List String := []

/-- The default templates of `AutocompleteBase`, as a reference instance. -/
def defaultBase : AutocompleteBase := {}

/-- `AutocompleteBase.choices_for_request` as supplied by the subclass. -/
def AutocompleteBase.choices_for_request (a : AutocompleteBase) :
    List String :=
  a.choicesForRequestResult

/-- `AutocompleteInterface.choices_for_values` as supplied by the subclass. -/
def AutocompleteBase.choices_for_values (a : AutocompleteBase) :
    List String :=
  a.choicesForValuesResult

/-- `AutocompleteBase.validate_values`:

    return len(self.choices_for_values()) == len(self.values)
-/
def AutocompleteBase.validate_values (a : AutocompleteBase) : Bool :=
  a.choices_for_values.length == a.values.length

/-- `AutocompleteBase.choice_value`: `force_str(choice)`; the identity on
a choice carried as its textual form. -/
def AutocompleteBase.choice_value (_ : AutocompleteBase) (choice : String) :
    String :=
  choice

/-- `AutocompleteBase.choice_label`: `force_str(choice)`; the identity on
a choice carried as its textual form. -/
def AutocompleteBase.choice_label (_ : AutocompleteBase) (choice : String) :
    String :=
  choice

/-- `AutocompleteBase.choice_html`:

    return self.choice_html_format % (
        escape(self.choice_value(choice)),
        escape(self.choice_label(choice)))
-/
def AutocompleteBase.choice_html (a : AutocompleteBase) (choice : String) :
    String :=
  pformat a.choice_html_format
    [escape (a.choice_value choice), escape (a.choice_label choice)]

/-- The translated empty-state message; `gettext_lazy('No matches found')`
defaults to the literal text. -/
def noMatchesMsg : String := "No matches found"

/-- `AutocompleteBase.autocomplete_html`:

    html = ''.join(
        [self.choice_html(c) for c in self.choices_for_request()])
    if not html:
        html = self.empty_html_format % ('No matches found')
    return self.autocomplete_html_format % html
-/
def AutocompleteBase.autocomplete_html (a : AutocompleteBase) : String :=
  let html := String.join (a.choices_for_request.map a.choice_html)
  let html :=
    if html = "" then pformat a.empty_html_format [noMatchesMsg] else html
  pformat a.autocomplete_html_format [html]

/-- `AutocompleteBase.get_add_another_url`, given the ambient route
resolver:

    if self.add_another_url_name:
        url = reverse(self.add_another_url_name,
                      kwargs=self.add_another_url_kwargs)
        return url + '?_popup=1'
    else:
        return None

`if self.add_another_url_name:` is Python truthiness: both `None` and the
empty string are falsy. A failed `reverse` propagates `NoReverseMatch`. -/
def AutocompleteBase.get_add_another_url (resolve : Resolver)
    (a : AutocompleteBase) : Except PyError (Option String) :=
  match a.add_another_url_name with
  | Option.some name =>
      if name = "" then
        .ok Option.none
      else
        match resolve name [] a.add_another_url_kwargs with
        | some url => .ok (Option.some (url ++ "?_popup=1"))
        | none => .error .noReverseMatch
  | Option.none => .ok Option.none

/-- The state-passing form of a `validate_values` call: the method body is
a single `return` reading `self`, with no assignment to any attribute, so
the receiver comes back unchanged. -/
def AutocompleteBase.validate_values_call (a : AutocompleteBase) :
    Bool × AutocompleteBase :=
  (a.validate_values, a)

/-- The state-passing form of an `autocomplete_html` call: the method body
only binds the local `html`, with no assignment to any attribute, so the
receiver comes back unchanged. -/
def AutocompleteBase.autocomplete_html_call (a : AutocompleteBase) :
    String × AutocompleteBase :=
  (a.autocomplete_html, a)

/-! ## Helper lemmas -/

lemma append_ne_empty_left (s t : String) (h : s ≠ "") : s ++ t ≠ "" := by
  intro hc
  apply h
  have hd := congrArg String.data hc
  rw [String.data_append] at hd
  have hs : s.data = [] := (List.append_eq_nil.mp hd).1
  exact String.ext hs

lemma foldl_append_ne_empty (xs : List String) (s : String) (h : s ≠ "") :
    List.foldl (fun r t => r ++ t) s xs ≠ "" := by
  induction xs generalizing s with
  | nil => exact h
  | cons y ys ih => exact ih (s ++ y) (append_ne_empty_left s y h)

lemma join_ne_empty (x : String) (xs : List String) (h : x ≠ "") :
    String.join (x :: xs) ≠ "" := by
  have hj : String.join (x :: xs) =
      List.foldl (fun r t => r ++ t) ("" ++ x) xs := rfl
  rw [hj]
  exact foldl_append_ne_empty xs ("" ++ x) (by simpa using h)

lemma pformatAux_cons (c : Char) (rest : List Char) (args : List String)
    (h : c ≠ '%') : pformatAux (c :: rest) args = c :: pformatAux rest args := by
  rw [pformatAux.eq_def]
  split <;> simp_all

/-- With the default choice template, a rendered choice is never the empty
string (the template starts with a literal `<`). -/
lemma choice_html_default_ne_empty (a : AutocompleteBase)
    (hfmt : a.choice_html_format = defaultBase.choice_html_format)
    (c : String) : a.choice_html c ≠ "" := by
  unfold AutocompleteBase.choice_html pformat
  rw [hfmt]
  show String.mk (pformatAux ('<' :: "span data-value=\"%s\">%s</span>".data) _) ≠ ""
  rw [pformatAux_cons _ _ _ (by decide)]
  intro hc
  have hd := congrArg String.data hc
  simp at hd

/-- Unfolded form of `autocomplete_html`. -/
lemma autocomplete_html_eq (a : AutocompleteBase) :
    a.autocomplete_html =
      pformat a.autocomplete_html_format
        [if String.join (a.choices_for_request.map a.choice_html) = "" then
           pformat a.empty_html_format [noMatchesMsg]
         else
           String.join (a.choices_for_request.map a.choice_html)] := rfl

/-- Each character produced by `escapeChar` is neither a raw `<` nor a
raw `>`. -/
lemma escapeChar_inert (c : Char) :
    ((escapeChar c).all fun d => !(d == '<') && !(d == '>')) = true := by
  unfold escapeChar
  split <;> simp_all

lemma escapeList_inert (l : List Char) :
    ((escapeList l).all fun d => !(d == '<') && !(d == '>')) = true := by
  induction l with
  | nil => rfl
  | cons c cs ih =>
      unfold escapeList
      rw [List.all_append]
      rw [escapeChar_inert, ih]
      rfl

/-! ## Claim theorems -/

/-- Claim C1, counterexample: a string is iterable (and not `None`), yet
construction does not store its elements — the claimed three-case analysis
("any other iterable is used as-is") fails on strings. -/
theorem string_values_not_iterated_counterexample :
    (PyVal.str "ab").hasIter = true ∧
    (PyVal.str "ab").isNone = false ∧
    initValues (PyVal.str "ab") ≠ (PyVal.str "ab").iterElems := by
  refine ⟨rfl, rfl, fun h => ?_⟩
  have h1 : (initValues (PyVal.str "ab")).length = 1 := rfl
  rw [h] at h1
  have h2 : ((PyVal.str "ab").iterElems).length = 2 := rfl
  rw [h2] at h1
  exact absurd h1 (by decide)

/-- Claim C1, amended: construction normalizes the `values` argument by
four cases — `None` becomes the empty sequence; a string, although
iterable, is wrapped into a one-element sequence containing the whole
string; any other non-iterable value is wrapped into a one-element
sequence; any other iterable is used as-is (order preserved, duplicates
retained). -/
theorem values_init_normalization_amended :
    initValues PyVal.none = [] ∧
    (∀ v : PyVal, v.isNone = false → v.hasIter = false → initValues v = [v]) ∧
    (∀ s : String, initValues (PyVal.str s) = [PyVal.str s]) ∧
    (∀ xs : List PyVal, initValues (PyVal.list xs) = xs) := by
  refine ⟨rfl, ?_, fun s => rfl, fun xs => rfl⟩
  intro v h1 h2
  cases v with
  | none => simp [PyVal.isNone] at h1
  | str s => simp [PyVal.hasIter] at h2
  | int n => rfl
  | list xs => simp [PyVal.hasIter] at h2

/-- Claim C1, amended, witness: the non-iterable scalar `7` is wrapped
into a one-element sequence. -/
theorem values_init_normalization_amended_witness :
    initValues (PyVal.int 7) = [PyVal.int 7] :=
  values_init_normalization_amended.2.1 (PyVal.int 7) rfl rfl

/-- Claim C2: `validate_values` is true exactly when the number of choices
returned by `choices_for_values` equals the length of the stored values
sequence; it performs no per-value membership check — an unrelated choice
still validates a one-element values sequence, while two values backed by
a single choice do not validate. -/
theorem validate_values_cardinality :
    (∀ a : AutocompleteBase,
      a.validate_values = true ↔
        a.choices_for_values.length = a.values.length) ∧
    AutocompleteBase.validate_values
      { values := [PyVal.str "x"], choicesForValuesResult := ["y"] } = true ∧
    AutocompleteBase.validate_values
      { values := [PyVal.str "a", PyVal.str "b"],
        choicesForValuesResult := ["y"] } = false := by
  refine ⟨fun a => ?_, rfl, rfl⟩
  simp [AutocompleteBase.validate_values, AutocompleteBase.choices_for_values]

/-- Claim C3: with the default choice template, a non-empty
`choices_for_request` renders as the concatenation of `choice_html` over
the choices in order, wrapped in the list template; with all templates at
their defaults, choices `["a", "b"]` render exactly as two value-tagged
spans. -/
theorem autocomplete_html_nonempty_render :
    (∀ a : AutocompleteBase,
      a.choice_html_format = defaultBase.choice_html_format →
      a.choices_for_request ≠ [] →
      a.autocomplete_html =
        pformat a.autocomplete_html_format
          [String.join (a.choices_for_request.map a.choice_html)]) ∧
    AutocompleteBase.autocomplete_html { choicesForRequestResult := ["a", "b"] } =
      "<span data-value=\"a\">a</span><span data-value=\"b\">b</span>" := by
  refine ⟨?_, by decide⟩
  intro a hfmt hne
  obtain ⟨c, cs, hcc⟩ := List.exists_cons_of_ne_nil hne
  rw [autocomplete_html_eq, hcc]
  simp only [List.map_cons]
  rw [if_neg (join_ne_empty _ _ (choice_html_default_ne_empty a hfmt c))]

/-- Claim C3, witness: a default-template implementation returning
`["a", "b"]` renders as the wrapped concatenation. -/
theorem autocomplete_html_nonempty_render_witness :
    AutocompleteBase.autocomplete_html { choicesForRequestResult := ["a", "b"] } =
      pformat ({ choicesForRequestResult := ["a", "b"] } :
          AutocompleteBase).autocomplete_html_format
        [String.join
          (({ choicesForRequestResult := ["a", "b"] } :
              AutocompleteBase).choices_for_request.map
            ({ choicesForRequestResult := ["a", "b"] } :
                AutocompleteBase).choice_html)] :=
  autocomplete_html_nonempty_render.1
    { choicesForRequestResult := ["a", "b"] } rfl (by decide)

/-- Claim C4: when `choices_for_request` returns the empty list, render
yields exactly the empty-state message substituted into the empty template
and wrapped in the list template; with the default templates this is the
"No matches found" block. -/
theorem autocomplete_html_empty_render :
    (∀ a : AutocompleteBase, a.choices_for_request = [] →
      a.autocomplete_html =
        pformat a.autocomplete_html_format
          [pformat a.empty_html_format [noMatchesMsg]]) ∧
    defaultBase.autocomplete_html =
      "<span class=\"block\"><em>No matches found</em></span>" := by
  refine ⟨?_, by decide⟩
  intro a h
  rw [autocomplete_html_eq, h]
  simp only [List.map_nil]
  rw [if_pos (show String.join ([] : List String) = "" from rfl)]

/-- Claim C4, witness: the default implementation (whose request choices
are empty) renders the wrapped empty-state message. -/
theorem autocomplete_html_empty_render_witness :
    defaultBase.autocomplete_html =
      pformat defaultBase.autocomplete_html_format
        [pformat defaultBase.empty_html_format [noMatchesMsg]] :=
  autocomplete_html_empty_render.1 defaultBase rfl

/-- Claim C5: `choice_html` escapes the choice's value and label
independently (value first, then label) before substituting them into the
choice template; escaped text never contains a raw `<` or `>`, and the
textual form `<script>` renders as `&lt;script&gt;` in both the value
attribute and the label content. -/
theorem choice_html_escaping :
    (∀ (a : AutocompleteBase) (c : String),
      a.choice_html c =
        pformat a.choice_html_format
          [escape (a.choice_value c), escape (a.choice_label c)]) ∧
    (∀ s : String,
      ((escape s).data.all fun d => !(d == '<') && !(d == '>')) = true) ∧
    escape "<script>" = "&lt;script&gt;" ∧
    AutocompleteBase.choice_html {} "<script>" =
      "<span data-value=\"&lt;script&gt;\">&lt;script&gt;</span>" :=
  ⟨fun _ _ => rfl, fun s => escapeList_inert s.data, rfl, by decide⟩

/-- Claim C6: the bare interface's `autocomplete_html`, `validate_values`
and `choices_for_values`, and the basic formatter's `choices_for_request`,
all fail immediately rather than returning a default — but, because the
body `raise NotImplemented()` calls the non-callable `NotImplemented`
singleton, the signal actually raised is a `TypeError`, not a
capability-not-implemented (`NotImplementedError`) signal. -/
theorem unimplemented_methods_raise_type_error :
    interfaceAutocompleteHtml =
      Except.error (PyError.typeError notCallableMsg) ∧
    interfaceValidateValues =
      Except.error (PyError.typeError notCallableMsg) ∧
    interfaceChoicesForValues =
      Except.error (PyError.typeError notCallableMsg) ∧
    baseChoicesForRequest =
      Except.error (PyError.typeError notCallableMsg) ∧
    PyError.typeError notCallableMsg ≠ PyError.notImplementedError :=
  ⟨rfl, rfl, rfl, rfl, by decide⟩

/-- Claim C7: when the `autocomplete_light_autocomplete` route is not
registered for the implementation's class name, `get_absolute_url` raises
`ImproperlyConfigured` with a message containing that class name; when the
route resolves, it returns the resolved URL. -/
theorem get_absolute_url_route_lookup (resolve : Resolver) (cn : String) :
    (resolve "autocomplete_light_autocomplete" [cn] [] = Option.none →
      get_absolute_url resolve cn =
        Except.error (PyError.improperlyConfigured
          ("URL lookup for autocomplete \x27" ++ cn ++
           "\x27 failed. Have you included autocomplete_light.urls in your urls.py?"))) ∧
    (∀ url : String,
      resolve "autocomplete_light_autocomplete" [cn] [] = Option.some url →
      get_absolute_url resolve cn = Except.ok url) := by
  constructor
  · intro h
    unfold get_absolute_url
    rw [h]
  · intro url h
    unfold get_absolute_url
    rw [h]

/-- Claim C7, witness: with no route registered the error names the class
`MyAutocomplete`; with a route registered the URL is returned. -/
theorem get_absolute_url_route_lookup_witness :
    get_absolute_url (fun _ _ _ => Option.none) "MyAutocomplete" =
      Except.error (PyError.improperlyConfigured
        ("URL lookup for autocomplete \x27" ++ "MyAutocomplete" ++
         "\x27 failed. Have you included autocomplete_light.urls in your urls.py?")) ∧
    get_absolute_url (fun _ _ _ => Option.some "/ac/MyAutocomplete/")
        "MyAutocomplete" =
      Except.ok "/ac/MyAutocomplete/" :=
  ⟨(get_absolute_url_route_lookup (fun _ _ _ => Option.none)
      "MyAutocomplete").1 rfl,
   (get_absolute_url_route_lookup (fun _ _ _ => Option.some "/ac/MyAutocomplete/")
      "MyAutocomplete").2 "/ac/MyAutocomplete/" rfl⟩

/-- Claim C8: when a (non-empty) route name is configured,
`get_add_another_url` returns the resolved URL for that name with the
configured keyword arguments and `?_popup=1` appended; when the route name
is unset it returns `None` and raises no error. -/
theorem get_add_another_url_popup (resolve : Resolver) (a : AutocompleteBase) :
    (∀ name url : String,
      a.add_another_url_name = Option.some name → name ≠ "" →
      resolve name [] a.add_another_url_kwargs = Option.some url →
      AutocompleteBase.get_add_another_url resolve a =
        Except.ok (Option.some (url ++ "?_popup=1"))) ∧
    (a.add_another_url_name = Option.none →
      AutocompleteBase.get_add_another_url resolve a = Except.ok Option.none) := by
  constructor
  · intro name url h1 h2 h3
    simp [AutocompleteBase.get_add_another_url, h1, h2, h3]
  · intro h
    simp [AutocompleteBase.get_add_another_url, h]

/-- Claim C8, witness: a configured route name resolves with the popup
marker appended; the default (unset) name yields `None` without error. -/
theorem get_add_another_url_popup_witness :
    AutocompleteBase.get_add_another_url (fun _ _ _ => Option.some "/add/")
        { add_another_url_name := Option.some "thing_add" } =
      Except.ok (Option.some ("/add/" ++ "?_popup=1")) ∧
    AutocompleteBase.get_add_another_url (fun _ _ _ => Option.some "/add/") {} =
      Except.ok Option.none :=
  ⟨(get_add_another_url_popup (fun _ _ _ => Option.some "/add/")
      { add_another_url_name := Option.some "thing_add" }).1
      "thing_add" "/add/" rfl (by decide) rfl,
   (get_add_another_url_popup (fun _ _ _ => Option.some "/add/") {}).2 rfl⟩

/-- Claim C9: `autocomplete_html` and `validate_values` leave the
instance's `values` and `request` unchanged, and their results are
determined entirely by the instance's fields and the lists the retrieval
methods return: two instances agreeing on those produce equal outputs
(agreement on the add-another configuration is not even needed). -/
theorem render_validate_pure_and_deterministic (a b : AutocompleteBase)
    (hv : a.values = b.values) (_hr : a.request = b.request)
    (hcr : a.choices_for_request = b.choices_for_request)
    (hcv : a.choices_for_values = b.choices_for_values)
    (hcf : a.choice_html_format = b.choice_html_format)
    (hef : a.empty_html_format = b.empty_html_format)
    (haf : a.autocomplete_html_format = b.autocomplete_html_format) :
    (a.autocomplete_html_call.2.values = a.values ∧
     a.autocomplete_html_call.2.request = a.request ∧
     a.validate_values_call.2.values = a.values ∧
     a.validate_values_call.2.request = a.request) ∧
    a.autocomplete_html = b.autocomplete_html ∧
    a.validate_values = b.validate_values := by
  refine ⟨⟨rfl, rfl, rfl, rfl⟩, ?_, ?_⟩
  · have hch : a.choice_html = b.choice_html := by
      funext c
      unfold AutocompleteBase.choice_html AutocompleteBase.choice_value
        AutocompleteBase.choice_label
      rw [hcf]
    rw [autocomplete_html_eq, autocomplete_html_eq, hcr, hch, hef, haf]
  · unfold AutocompleteBase.validate_values
    rw [hcv, hv]

/-- Claim C9, witness: on the default instance, both calls return the
receiver's `values` and `request` unchanged and outputs agree. -/
theorem render_validate_pure_and_deterministic_witness :
    (defaultBase.autocomplete_html_call.2.values = defaultBase.values ∧
     defaultBase.autocomplete_html_call.2.request = defaultBase.request ∧
     defaultBase.validate_values_call.2.values = defaultBase.values ∧
     defaultBase.validate_values_call.2.request = defaultBase.request) ∧
    defaultBase.autocomplete_html = defaultBase.autocomplete_html ∧
    defaultBase.validate_values = defaultBase.validate_values :=
  render_validate_pure_and_deterministic defaultBase defaultBase
    rfl rfl rfl rfl rfl rfl rfl

/-- Claim C10: a string passed as the `values` argument is stored as a
one-element list containing the whole string, even though strings are
iterable — it is never split into its characters. -/
theorem string_values_wrapped_whole (s : String) :
    initValues (PyVal.str s) = [PyVal.str s] ∧ (PyVal.str s).hasIter = true :=
  ⟨rfl, rfl⟩
